import Mathlib

/-!
Verification development for the rent-vs-own scenario simulator.

The program under study compares renting against owning a home by running a
month-by-month simulation (`compare_scenarios` in `model.py`) over location
financial defaults and scenario assumptions (`schemas.py`).  Python floats are
modelled as real numbers, raised `ValueError`s as `Except.error`, and the
`for month in range(1, months + 1)` loop as a left fold over `List.range' 1 months`.
-/

namespace RentVsOwn

noncomputable section

/-- Data model (schemas.py, `LocationFinancialDefaults`): CBSA-level financial
defaults.  Fields in source order: `cbsa`, `name`, `median_income`,
`median_rent`, `property_value`, `loan_amount`, `interest_rate` (annual
percentage), `loan_term_months` (int, source default 360), `monthly_taxes`,
`monthly_insurance`, `monthly_utilities`. -/
structure LocationFinancialDefaults where
  cbsa : String
  name : String
  median_income : ℝ
  median_rent : ℝ
  property_value : ℝ
  loan_amount : ℝ
  interest_rate : ℝ
  loan_term_months : ℤ
  monthly_taxes : ℝ
  monthly_insurance : ℝ
  monthly_utilities : ℝ

/-- Derived property (schemas.py): `down_payment = max(property_value - loan_amount, 0.0)`. -/
def LocationFinancialDefaults.down_payment (d : LocationFinancialDefaults) : ℝ :=
  max (d.property_value - d.loan_amount) 0

/-- Derived property (schemas.py): `owner_non_pi_costs = monthly_taxes + monthly_insurance + monthly_utilities`. -/
def LocationFinancialDefaults.owner_non_pi_costs (d : LocationFinancialDefaults) : ℝ :=
  d.monthly_taxes + d.monthly_insurance + d.monthly_utilities

/-- Data model (schemas.py, `ScenarioAssumptions`): user-configurable knobs.
Fields in source order: `horizon_years` (int, source default 30),
`appreciation_rate` (source default 0.03), `investment_return` (source default
0.05), `savings_rate_of_income` (source default 0.05). -/
structure ScenarioAssumptions where
  horizon_years : ℤ
  appreciation_rate : ℝ
  investment_return : ℝ
  savings_rate_of_income : ℝ

/-- The default-constructed `ScenarioAssumptions()` of the source. -/
def defaultScenarioAssumptions : ScenarioAssumptions :=
  ⟨30, 0.03, 0.05, 0.05⟩

/-- Validation performed by `ScenarioAssumptions.__post_init__` (schemas.py):
raises `ValueError` when `horizon_years <= 0` or when
`not 0 <= savings_rate_of_income <= 1`; otherwise construction succeeds. -/
def ScenarioAssumptions.validate (a : ScenarioAssumptions) :
    Except String ScenarioAssumptions :=
  if a.horizon_years ≤ 0 then Except.error "horizon_years must be positive"
  else if ¬ (0 ≤ a.savings_rate_of_income ∧ a.savings_rate_of_income ≤ 1) then
    Except.error "savings_rate_of_income must be between 0 and 1"
  else Except.ok a

/-- Data model (schemas.py, `MonthlySnapshot`): one month's simulated state.
All value fields are `Optional[float]` with default `None` in the source. -/
structure MonthlySnapshot where
  month : ℕ
  home_value : Option ℝ
  equity : Option ℝ
  loan_balance : Option ℝ
  renter_portfolio : Option ℝ

/-- Data model (schemas.py, `ComparisonResult`): the final report of a run. -/
structure ComparisonResult where
  defaults : LocationFinancialDefaults
  assumptions : ScenarioAssumptions
  owner_monthly_cost : ℝ
  renter_monthly_cost : ℝ
  owner_equity : ℝ
  renter_portfolio : ℝ
  break_even_month : Option ℕ
  timeline : List MonthlySnapshot

/-- Rate conversion (model.py, `annual_to_monthly_rate`): returns 0 when
`annual_rate_pct <= 0`, else `annual_rate_pct / 100.0 / 12.0`. -/
def annual_to_monthly_rate (annual_rate_pct : ℝ) : ℝ :=
  if annual_rate_pct ≤ 0 then 0 else annual_rate_pct / 100 / 12

/-- The value `(1 + annual_rate) ** (1 / 12.0) - 1` computed by
`annual_to_monthly_growth` (model.py) on its non-raising path. -/
def annual_to_monthly_growth_val (annual_rate : ℝ) : ℝ :=
  (1 + annual_rate) ^ ((1 : ℝ) / 12) - 1

/-- Rate conversion (model.py, `annual_to_monthly_growth`): raises `ValueError`
when `annual_rate <= -1`, else returns `(1 + annual_rate) ** (1 / 12.0) - 1`. -/
def annual_to_monthly_growth (annual_rate : ℝ) : Except String ℝ :=
  if annual_rate ≤ -1 then Except.error "annual rate must be greater than -100%"
  else Except.ok (annual_to_monthly_growth_val annual_rate)

/-- Amortization (model.py, `monthly_mortgage_payment`): 0 when
`principal <= 0 or term_months <= 0`; otherwise straight-line
`principal / term_months` when the derived monthly rate is 0, else
`principal * monthly_rate / (1 - (1 + monthly_rate) ** (-term_months))`. -/
def monthly_mortgage_payment (principal annual_rate_pct : ℝ) (term_months : ℤ) : ℝ :=
  if principal ≤ 0 ∨ term_months ≤ 0 then 0
  else
    let monthly_rate := annual_to_monthly_rate annual_rate_pct
    if monthly_rate = 0 then principal / (term_months : ℝ)
    else principal * monthly_rate / (1 - (1 + monthly_rate) ^ (-term_months))

/-- The per-run scalar parameters computed once in the setup phase of
`compare_scenarios` (model.py, lines 20-31), plus the loan term consulted by
the monthly guard. -/
structure SimParams where
  mortgage_payment : ℝ
  mortgage_rate_monthly : ℝ
  appreciation_monthly : ℝ
  investment_monthly : ℝ
  monthly_investment : ℝ
  loan_term_months : ℤ

/-- The mutable loop state of `compare_scenarios` (model.py, lines 33-37). -/
structure SimState where
  balance : ℝ
  home_value : ℝ
  portfolio : ℝ
  break_even : Option ℕ
  timeline : List MonthlySnapshot

/-- Balance update of one loop iteration (model.py, lines 40-45):
`interest_payment = balance * mortgage_rate_monthly if balance > 0 else 0.0`;
when `balance > 0 and mortgage_payment > 0 and month <= loan_term_months`,
`balance = max(balance - min(max(mortgage_payment - interest_payment, 0.0), balance), 0.0)`. -/
def nextBal (p : SimParams) (month : ℕ) (b : ℝ) : ℝ :=
  let interest_payment := if b > 0 then b * p.mortgage_rate_monthly else 0
  if b > 0 ∧ p.mortgage_payment > 0 ∧ (month : ℤ) ≤ p.loan_term_months then
    max (b - min (max (p.mortgage_payment - interest_payment) 0) b) 0
  else b

/-- One iteration of the monthly loop of `compare_scenarios`
(model.py, lines 39-63). -/
def simStep (p : SimParams) (month : ℕ) (s : SimState) : SimState :=
  let balance := nextBal p month s.balance
  let home_value := s.home_value * (1 + p.appreciation_monthly)
  let equity := max (home_value - balance) 0
  let portfolio := s.portfolio * (1 + p.investment_monthly) + p.monthly_investment
  let break_even :=
    if s.break_even = none ∧ portfolio ≥ equity then some month else s.break_even
  ⟨balance, home_value, portfolio, break_even,
    s.timeline ++ [⟨month, some home_value, some equity, some balance, some portfolio⟩]⟩

/-- The loop `for month in range(1, months + 1)` of `compare_scenarios` as a
left fold over the month indices `1, 2, ..., months`. -/
def runSim (p : SimParams) (s : SimState) (months : ℕ) : SimState :=
  (List.range' 1 months).foldl (fun st m => simStep p m st) s

/-- The setup phase of `compare_scenarios` (model.py, lines 20-31): the
constant mortgage payment, the three converted monthly rates, the renter's
constant monthly contribution `median_income / 12.0 * savings_rate_of_income`,
and the loan term consulted by the loop guard. -/
def simParams (defaults : LocationFinancialDefaults)
    (assumptions : ScenarioAssumptions) : SimParams :=
  ⟨monthly_mortgage_payment defaults.loan_amount defaults.interest_rate
      defaults.loan_term_months,
    annual_to_monthly_rate defaults.interest_rate,
    annual_to_monthly_growth_val assumptions.appreciation_rate,
    annual_to_monthly_growth_val assumptions.investment_return,
    defaults.median_income / 12 * assumptions.savings_rate_of_income,
    defaults.loan_term_months⟩

/-- The body of `compare_scenarios` (model.py) after both growth-rate
conversions have succeeded, producing their values
`annual_to_monthly_growth_val`. -/
def compare_core (defaults : LocationFinancialDefaults)
    (assumptions : ScenarioAssumptions) : ComparisonResult :=
  let months := (assumptions.horizon_years * 12).toNat
  let p := simParams defaults assumptions
  let s := runSim p ⟨defaults.loan_amount, defaults.property_value, 0, none, []⟩ months
  ⟨defaults, assumptions,
    p.mortgage_payment + defaults.owner_non_pi_costs,
    defaults.median_rent,
    s.timeline.getLast?.elim 0 (fun snap => snap.equity.getD 0),
    s.timeline.getLast?.elim 0 (fun snap => snap.renter_portfolio.getD 0),
    s.break_even,
    s.timeline⟩

/-- Top-level `compare_scenarios` (model.py): an omitted assumptions argument
defaults to `ScenarioAssumptions()`; the two `annual_to_monthly_growth` calls
may raise (appreciation first, then investment return), in which case no
result is produced; otherwise the simulation runs to completion. -/
def compare_scenarios (defaults : LocationFinancialDefaults)
    (assumptions? : Option ScenarioAssumptions) : Except String ComparisonResult :=
  let assumptions := assumptions?.getD defaultScenarioAssumptions
  match annual_to_monthly_growth assumptions.appreciation_rate,
      annual_to_monthly_growth assumptions.investment_return with
  | Except.error e, _ => Except.error e
  | Except.ok _, Except.error e => Except.error e
  | Except.ok _, Except.ok _ => Except.ok (compare_core defaults assumptions)

/-- Loan balance after `n` simulated months, as a scalar recurrence. -/
def balSeq (p : SimParams) (b0 : ℝ) : ℕ → ℝ
  | 0 => b0
  | n + 1 => nextBal p (n + 1) (balSeq p b0 n)

/-- Home value after `n` simulated months, as a scalar recurrence. -/
def hvSeq (p : SimParams) (h0 : ℝ) : ℕ → ℝ
  | 0 => h0
  | n + 1 => hvSeq p h0 n * (1 + p.appreciation_monthly)

/-- Renter portfolio after `n` simulated months, as a scalar recurrence. -/
def pfSeq (p : SimParams) : ℕ → ℝ
  | 0 => 0
  | n + 1 => pfSeq p n * (1 + p.investment_monthly) + p.monthly_investment

/-- Owner equity recorded in month `n` : `max(home_value - balance, 0.0)`. -/
def eqSeq (p : SimParams) (b0 h0 : ℝ) (n : ℕ) : ℝ :=
  max (hvSeq p h0 n - balSeq p b0 n) 0

/-- The break-even register after `n` simulated months. -/
def beSeq (p : SimParams) (b0 h0 : ℝ) : ℕ → Option ℕ
  | 0 => none
  | n + 1 =>
    if beSeq p b0 h0 n = none ∧ pfSeq p (n + 1) ≥ eqSeq p b0 h0 (n + 1) then some (n + 1)
    else beSeq p b0 h0 n

/-- The snapshot appended in month `i + 1` (0-based timeline index `i`). -/
def snapSeq (p : SimParams) (b0 h0 : ℝ) (i : ℕ) : MonthlySnapshot :=
  ⟨i + 1, some (hvSeq p h0 (i + 1)), some (eqSeq p b0 h0 (i + 1)),
    some (balSeq p b0 (i + 1)), some (pfSeq p (i + 1))⟩

theorem runSim_succ (p : SimParams) (s : SimState) (n : ℕ) :
    runSim p s (n + 1) = simStep p (n + 1) (runSim p s n) := by
  unfold runSim
  rw [List.range'_1_concat, List.foldl_append]
  simp [Nat.add_comm 1 n]

/-- Characterization of the simulation loop by the four scalar recurrences and
the per-month snapshot sequence. -/
theorem runSim_spec (p : SimParams) (b0 h0 : ℝ) (n : ℕ) :
    runSim p ⟨b0, h0, 0, none, []⟩ n =
      ⟨balSeq p b0 n, hvSeq p h0 n, pfSeq p n, beSeq p b0 h0 n,
        (List.range n).map (snapSeq p b0 h0)⟩ := by
  induction n with
  | zero => simp [runSim, balSeq, hvSeq, pfSeq, beSeq]
  | succ n ih =>
    rw [runSim_succ, ih]
    simp only [simStep, balSeq, hvSeq, pfSeq, beSeq, eqSeq, snapSeq, List.range_succ,
      List.map_append, List.map_cons, List.map_nil]

/-- Inversion of the top-level run: it succeeds exactly when both annual
growth rates are above -100%, and then the result is `compare_core`. -/
theorem compare_scenarios_ok_iff (d : LocationFinancialDefaults)
    (a? : Option ScenarioAssumptions) (res : ComparisonResult) :
    compare_scenarios d a? = Except.ok res ↔
      -1 < (a?.getD defaultScenarioAssumptions).appreciation_rate ∧
        -1 < (a?.getD defaultScenarioAssumptions).investment_return ∧
        res = compare_core d (a?.getD defaultScenarioAssumptions) := by
  by_cases h1 : (a?.getD defaultScenarioAssumptions).appreciation_rate ≤ -1
  · simp [compare_scenarios, annual_to_monthly_growth, h1, not_lt.mpr h1]
  · by_cases h2 : (a?.getD defaultScenarioAssumptions).investment_return ≤ -1
    · simp [compare_scenarios, annual_to_monthly_growth, h1, h2, not_lt.mpr h2]
    · simp [compare_scenarios, annual_to_monthly_growth, h1, h2, not_le.mp h1,
        not_le.mp h2, eq_comm]

/-- A run with explicit, valid growth rates succeeds and yields `compare_core`. -/
theorem compare_scenarios_ok_of (d : LocationFinancialDefaults)
    (a : ScenarioAssumptions) (h1 : -1 < a.appreciation_rate)
    (h2 : -1 < a.investment_return) :
    compare_scenarios d (some a) = Except.ok (compare_core d a) := by
  rw [compare_scenarios_ok_iff]
  exact ⟨h1, h2, rfl⟩

theorem compare_core_timeline (d : LocationFinancialDefaults) (a : ScenarioAssumptions) :
    (compare_core d a).timeline =
      (List.range (a.horizon_years * 12).toNat).map
        (snapSeq (simParams d a) d.loan_amount d.property_value) := by
  simp [compare_core, runSim_spec]

theorem compare_core_break_even (d : LocationFinancialDefaults) (a : ScenarioAssumptions) :
    (compare_core d a).break_even_month =
      beSeq (simParams d a) d.loan_amount d.property_value
        (a.horizon_years * 12).toNat := by
  simp [compare_core, runSim_spec]

theorem compare_core_timeline_length (d : LocationFinancialDefaults)
    (a : ScenarioAssumptions) :
    (compare_core d a).timeline.length = (a.horizon_years * 12).toNat := by
  simp [compare_core_timeline]

theorem compare_core_timeline_get (d : LocationFinancialDefaults)
    (a : ScenarioAssumptions) (i : ℕ)
    (hi : i < (compare_core d a).timeline.length) :
    (compare_core d a).timeline.get ⟨i, hi⟩ =
      snapSeq (simParams d a) d.loan_amount d.property_value i := by
  have hl := compare_core_timeline_length d a
  simp only [List.get_eq_getElem]
  rw [List.getElem_of_eq (compare_core_timeline d a)]
  simp

/-- One balance step never increases the balance. -/
theorem nextBal_le (p : SimParams) (month : ℕ) (b : ℝ) : nextBal p month b ≤ b := by
  unfold nextBal
  by_cases hg : b > 0 ∧ p.mortgage_payment > 0 ∧ (month : ℤ) ≤ p.loan_term_months
  · rw [if_pos hg]
    have hb := hg.1
    rw [if_pos hb]
    have h0 : (0 : ℝ) ≤ min (max (p.mortgage_payment - b * p.mortgage_rate_monthly) 0) b :=
      le_min (le_max_right _ 0) hb.le
    exact max_le (by linarith) hb.le
  · rw [if_neg hg]

/-- One balance step preserves non-negativity. -/
theorem nextBal_nonneg (p : SimParams) (month : ℕ) (b : ℝ) (hb : 0 ≤ b) :
    0 ≤ nextBal p month b := by
  unfold nextBal
  by_cases hg : b > 0 ∧ p.mortgage_payment > 0 ∧ (month : ℤ) ≤ p.loan_term_months
  · rw [if_pos hg]
    exact le_max_right _ 0
  · rw [if_neg hg]
    exact hb

/-- A non-positive balance is left untouched by the balance step. -/
theorem nextBal_of_nonpos (p : SimParams) (month : ℕ) (b : ℝ) (hb : b ≤ 0) :
    nextBal p month b = b := by
  unfold nextBal
  rw [if_neg (fun hc => absurd hb (not_le.mpr hc.1))]

theorem balSeq_nonneg (p : SimParams) (b0 : ℝ) (hb : 0 ≤ b0) (n : ℕ) :
    0 ≤ balSeq p b0 n := by
  induction n with
  | zero => exact hb
  | succ n ih => exact nextBal_nonneg p (n + 1) _ ih

theorem balSeq_antitone_step (p : SimParams) (b0 : ℝ) (n : ℕ) :
    balSeq p b0 (n + 1) ≤ balSeq p b0 n :=
  nextBal_le p (n + 1) _

theorem balSeq_of_nonpos (p : SimParams) (b0 : ℝ) (hb : b0 ≤ 0) (n : ℕ) :
    balSeq p b0 n = b0 := by
  induction n with
  | zero => rfl
  | succ n ih => rw [balSeq, ih, nextBal_of_nonpos p _ b0 hb]

/-- The base of the converted monthly growth factor is positive whenever the
annual rate is above -100%. -/
theorem one_add_growth_val_pos (r : ℝ) (hr : -1 < r) :
    0 < 1 + annual_to_monthly_growth_val r := by
  unfold annual_to_monthly_growth_val
  have hb : (0 : ℝ) < 1 + r := by linarith
  have := Real.rpow_pos_of_pos hb ((1 : ℝ) / 12)
  linarith

/-- The converted monthly growth rate is non-negative whenever the annual rate
is non-negative. -/
theorem growth_val_nonneg (r : ℝ) (hr : 0 ≤ r) :
    0 ≤ annual_to_monthly_growth_val r := by
  unfold annual_to_monthly_growth_val
  have hb : (1 : ℝ) ≤ 1 + r := by linarith
  have := Real.one_le_rpow hb (by norm_num : (0 : ℝ) ≤ 1 / 12)
  linarith

theorem pfSeq_nonneg (p : SimParams) (hc : 0 ≤ p.monthly_investment)
    (him : 0 ≤ 1 + p.investment_monthly) (n : ℕ) : 0 ≤ pfSeq p n := by
  induction n with
  | zero => exact le_refl 0
  | succ n ih =>
    rw [pfSeq]
    have : 0 ≤ pfSeq p n * (1 + p.investment_monthly) := mul_nonneg ih him
    linarith

theorem hvSeq_lower (p : SimParams) (h0 : ℝ) (hg : 0 ≤ p.appreciation_monthly)
    (hh : 0 ≤ h0) (n : ℕ) : h0 ≤ hvSeq p h0 n := by
  induction n with
  | zero => exact le_refl h0
  | succ n ih =>
    rw [hvSeq]
    have hpos : 0 ≤ hvSeq p h0 n := hh.trans ih
    nlinarith

theorem hvSeq_mono_step (p : SimParams) (h0 : ℝ) (hg : 0 ≤ p.appreciation_monthly)
    (hh : 0 ≤ h0) (n : ℕ) : hvSeq p h0 n ≤ hvSeq p h0 (n + 1) := by
  have hpos : 0 ≤ hvSeq p h0 n := hh.trans (hvSeq_lower p h0 hg hh n)
  rw [hvSeq]
  nlinarith

/-- Concrete inputs used as witnesses: a 12-dollar interest-free loan over 12
months, all other money fields zero. -/
def dLoan : LocationFinancialDefaults :=
  ⟨"00000", "Loantown", 0, 0, 0, 12, 0, 12, 0, 0, 0⟩

/-- Concrete assumptions used as witnesses: one-year horizon, all rates zero. -/
def aOne : ScenarioAssumptions :=
  ⟨1, 0, 0, 0⟩

/-- Concrete inputs with a negative loan amount, all other money fields zero. -/
def dNegLoan : LocationFinancialDefaults :=
  ⟨"00000", "Negtown", 0, 0, 0, -1, 0, 12, 0, 0, 0⟩

/-- Concrete inputs with a negative median income, no loan. -/
def dNegIncome : LocationFinancialDefaults :=
  ⟨"00000", "Negville", -12, 0, 0, 0, 0, 12, 0, 0, 0⟩

/-- Concrete assumptions saving 100% of income over a one-year horizon. -/
def aFullSave : ScenarioAssumptions :=
  ⟨1, 0, 0, 1⟩

/-- Claim C5: `monthly_mortgage_payment(principal, annual_rate_pct, term_months)`
returns 0 whenever `principal ≤ 0` or `term_months ≤ 0`; otherwise, with the
monthly rate derived as `annual_rate_pct / 100 / 12` when `annual_rate_pct > 0`
and 0 when `annual_rate_pct ≤ 0`, it returns `principal / term_months` when the
rate is 0 and `principal * r / (1 - (1 + r) ^ (-term_months))` when `r > 0`. -/
theorem claim_C5 (principal annual_rate_pct : ℝ) (term_months : ℤ) :
    ((principal ≤ 0 ∨ term_months ≤ 0) →
      monthly_mortgage_payment principal annual_rate_pct term_months = 0) ∧
    (0 < principal → 0 < term_months → annual_rate_pct ≤ 0 →
      annual_to_monthly_rate annual_rate_pct = 0 ∧
      monthly_mortgage_payment principal annual_rate_pct term_months =
        principal / (term_months : ℝ)) ∧
    (0 < principal → 0 < term_months → 0 < annual_rate_pct →
      annual_to_monthly_rate annual_rate_pct = annual_rate_pct / 100 / 12 ∧
      0 < annual_to_monthly_rate annual_rate_pct ∧
      monthly_mortgage_payment principal annual_rate_pct term_months =
        principal * (annual_rate_pct / 100 / 12) /
          (1 - (1 + annual_rate_pct / 100 / 12) ^ (-term_months))) := by
  refine ⟨fun h => ?_, fun hp ht hr => ?_, fun hp ht hr => ?_⟩
  · simp [monthly_mortgage_payment, h]
  · have hrate : annual_to_monthly_rate annual_rate_pct = 0 := by
      simp [annual_to_monthly_rate, hr]
    refine ⟨hrate, ?_⟩
    simp [monthly_mortgage_payment, not_le.mpr hp, not_le.mpr ht, hrate]
  · have hrate : annual_to_monthly_rate annual_rate_pct = annual_rate_pct / 100 / 12 := by
      simp [annual_to_monthly_rate, not_le.mpr hr]
    have hrpos : 0 < annual_rate_pct / 100 / 12 := by positivity
    refine ⟨hrate, hrate ▸ hrpos, ?_⟩
    simp [monthly_mortgage_payment, not_le.mpr hp, not_le.mpr ht, hrate, ne_of_gt hrpos]

/-- Witness for C5 at concrete inputs. -/
theorem claim_C5_witness :
    monthly_mortgage_payment (-5) 6 360 = 0 ∧
    monthly_mortgage_payment 2 (-3) 4 = 2 / ((4 : ℤ) : ℝ) := by
  constructor
  · exact (claim_C5 (-5) 6 360).1 (Or.inl (by norm_num))
  · exact ((claim_C5 2 (-3) 4).2.1 (by norm_num) (by norm_num) (by norm_num)).2

/-- Claim C7: constructing `ScenarioAssumptions` fails exactly when
`horizon_years ≤ 0` or `savings_rate_of_income` lies outside [0, 1];
`annual_to_monthly_growth` fails exactly when its argument is ≤ -1; and any
run of `compare_scenarios` that produces a result produces a complete
timeline (a failure produces no partial timeline). -/
theorem claim_C7 :
    (∀ a : ScenarioAssumptions,
      (∃ e, a.validate = Except.error e) ↔
        a.horizon_years ≤ 0 ∨ a.savings_rate_of_income < 0 ∨
          1 < a.savings_rate_of_income) ∧
    (∀ r : ℝ, (∃ e, annual_to_monthly_growth r = Except.error e) ↔ r ≤ -1) ∧
    (∀ (d : LocationFinancialDefaults) (a? : Option ScenarioAssumptions)
      (res : ComparisonResult), compare_scenarios d a? = Except.ok res →
      res.timeline.length =
        ((a?.getD defaultScenarioAssumptions).horizon_years * 12).toNat) := by
  refine ⟨fun a => ?_, fun r => ?_, fun d a? res h => ?_⟩
  · by_cases h1 : a.horizon_years ≤ 0
    · simp [ScenarioAssumptions.validate, h1]
    · by_cases h2 : 0 ≤ a.savings_rate_of_income ∧ a.savings_rate_of_income ≤ 1
      · simp [ScenarioAssumptions.validate, h1, h2, not_lt.mpr h2.1, not_lt.mpr h2.2]
      · rcases not_and_or.mp h2 with h | h
        · simp [ScenarioAssumptions.validate, h1, h2, not_le.mp h]
        · simp [ScenarioAssumptions.validate, h1, h2, not_le.mp h]
  · by_cases h : r ≤ -1 <;> simp [annual_to_monthly_growth, h]
  · rw [compare_scenarios_ok_iff] at h
    rw [h.2.2]
    exact compare_core_timeline_length d _

/-- Witness for C7: the spec's three rejection examples, plus a completed run. -/
theorem claim_C7_witness :
    (∃ e, (ScenarioAssumptions.mk 0 0.03 0.05 0.05).validate = Except.error e) ∧
    (∃ e, (ScenarioAssumptions.mk 30 0.03 0.05 1.5).validate = Except.error e) ∧
    (∃ e, annual_to_monthly_growth (-1) = Except.error e) ∧
    (compare_core dLoan aOne).timeline.length = ((1 : ℤ) * 12).toNat := by
  refine ⟨(claim_C7.1 _).mpr (Or.inl (by norm_num)),
    (claim_C7.1 _).mpr (Or.inr (Or.inr (by norm_num))),
    (claim_C7.2.1 _).mpr (by norm_num),
    claim_C7.2.2 dLoan (some aOne) _
      (compare_scenarios_ok_of dLoan aOne (by norm_num [aOne]) (by norm_num [aOne]))⟩

/-- Claim C3: every successful run of `compare_scenarios` yields a timeline of
exactly `horizon_years * 12` entries, each snapshot fully populated. -/
theorem claim_C3 (d : LocationFinancialDefaults) (a? : Option ScenarioAssumptions)
    (res : ComparisonResult) (h : compare_scenarios d a? = Except.ok res)
    (hhy : 0 < (a?.getD defaultScenarioAssumptions).horizon_years) :
    (res.timeline.length : ℤ) =
      (a?.getD defaultScenarioAssumptions).horizon_years * 12 ∧
    ∀ snap ∈ res.timeline,
      snap.home_value.isSome ∧ snap.equity.isSome ∧ snap.loan_balance.isSome ∧
        snap.renter_portfolio.isSome := by
  rw [compare_scenarios_ok_iff] at h
  obtain ⟨-, -, rfl⟩ := h
  constructor
  · rw [compare_core_timeline_length]
    have : (0 : ℤ) ≤ (a?.getD defaultScenarioAssumptions).horizon_years * 12 := by
      omega
    exact Int.toNat_of_nonneg this
  · intro snap hsnap
    rw [compare_core_timeline] at hsnap
    obtain ⟨i, -, rfl⟩ := List.mem_map.mp hsnap
    exact ⟨rfl, rfl, rfl, rfl⟩

/-- Witness for C3 at the concrete one-year loan run. -/
theorem claim_C3_witness :
    ((compare_core dLoan aOne).timeline.length : ℤ) = aOne.horizon_years * 12 ∧
    ∀ snap ∈ (compare_core dLoan aOne).timeline,
      snap.home_value.isSome ∧ snap.equity.isSome ∧ snap.loan_balance.isSome ∧
        snap.renter_portfolio.isSome :=
  claim_C3 dLoan (some aOne) _
    (compare_scenarios_ok_of dLoan aOne (by norm_num [aOne]) (by norm_num [aOne]))
    (by norm_num [aOne])

theorem pfSeq_one (p : SimParams) : pfSeq p 1 = p.monthly_investment := by
  show pfSeq p (0 + 1) = p.monthly_investment
  rw [pfSeq, pfSeq]
  ring

/-- Claim C9: along every run the per-snapshot loan balance is non-increasing,
and the first snapshot's balance does not exceed the input loan amount. -/
theorem claim_C9 (d : LocationFinancialDefaults) (a? : Option ScenarioAssumptions)
    (res : ComparisonResult) (h : compare_scenarios d a? = Except.ok res) :
    (∀ i, ∀ hi : i + 1 < res.timeline.length,
      ∃ b b', (res.timeline.get ⟨i, Nat.lt_of_succ_lt hi⟩).loan_balance = some b ∧
        (res.timeline.get ⟨i + 1, hi⟩).loan_balance = some b' ∧ b' ≤ b) ∧
    (∀ hi : 0 < res.timeline.length,
      ∃ b, (res.timeline.get ⟨0, hi⟩).loan_balance = some b ∧ b ≤ d.loan_amount) := by
  rw [compare_scenarios_ok_iff] at h
  obtain ⟨-, -, rfl⟩ := h
  constructor
  · intro i hi
    rw [compare_core_timeline_get, compare_core_timeline_get]
    exact ⟨_, _, rfl, rfl, balSeq_antitone_step _ _ (i + 1)⟩
  · intro hi
    rw [compare_core_timeline_get]
    exact ⟨_, rfl, balSeq_antitone_step _ _ 0⟩

/-- Witness for C9 at the concrete one-year loan run. -/
theorem claim_C9_witness :
    (∃ hi : 0 + 1 < (compare_core dLoan aOne).timeline.length,
      ∃ b b', ((compare_core dLoan aOne).timeline.get
          ⟨0, Nat.lt_of_succ_lt hi⟩).loan_balance = some b ∧
        ((compare_core dLoan aOne).timeline.get ⟨0 + 1, hi⟩).loan_balance = some b' ∧
        b' ≤ b) ∧
    (∃ hi : 0 < (compare_core dLoan aOne).timeline.length,
      ∃ b, ((compare_core dLoan aOne).timeline.get ⟨0, hi⟩).loan_balance = some b ∧
        b ≤ dLoan.loan_amount) := by
  have h := claim_C9 dLoan (some aOne) _
    (compare_scenarios_ok_of dLoan aOne (by norm_num [aOne]) (by norm_num [aOne]))
  have hlen : (compare_core dLoan aOne).timeline.length = 12 := by
    rw [compare_core_timeline_length]
    decide
  exact ⟨⟨by omega, h.1 0 (by omega)⟩, ⟨by omega, h.2 (by omega)⟩⟩

/-- Claim C10: with non-negative property value and appreciation rate, the
home value is non-decreasing along the timeline and never below the input
property value. -/
theorem claim_C10 (d : LocationFinancialDefaults) (a? : Option ScenarioAssumptions)
    (res : ComparisonResult) (h : compare_scenarios d a? = Except.ok res)
    (hpv : 0 ≤ d.property_value)
    (har : 0 ≤ (a?.getD defaultScenarioAssumptions).appreciation_rate) :
    (∀ i, ∀ hi : i + 1 < res.timeline.length,
      ∃ v v', (res.timeline.get ⟨i, Nat.lt_of_succ_lt hi⟩).home_value = some v ∧
        (res.timeline.get ⟨i + 1, hi⟩).home_value = some v' ∧ v ≤ v') ∧
    (∀ i, ∀ hi : i < res.timeline.length,
      ∃ v, (res.timeline.get ⟨i, hi⟩).home_value = some v ∧ d.property_value ≤ v) := by
  rw [compare_scenarios_ok_iff] at h
  obtain ⟨-, -, rfl⟩ := h
  have hg : 0 ≤ (simParams d (a?.getD defaultScenarioAssumptions)).appreciation_monthly :=
    growth_val_nonneg _ har
  constructor
  · intro i hi
    rw [compare_core_timeline_get, compare_core_timeline_get]
    exact ⟨_, _, rfl, rfl, hvSeq_mono_step _ _ hg hpv (i + 1)⟩
  · intro i hi
    rw [compare_core_timeline_get]
    exact ⟨_, rfl, hvSeq_lower _ _ hg hpv (i + 1)⟩

/-- Witness for C10 at the concrete one-year loan run. -/
theorem claim_C10_witness :
    (∃ hi : 0 + 1 < (compare_core dLoan aOne).timeline.length,
      ∃ v v', ((compare_core dLoan aOne).timeline.get
          ⟨0, Nat.lt_of_succ_lt hi⟩).home_value = some v ∧
        ((compare_core dLoan aOne).timeline.get ⟨0 + 1, hi⟩).home_value = some v' ∧
        v ≤ v') ∧
    (∃ hi : 0 < (compare_core dLoan aOne).timeline.length,
      ∃ v, ((compare_core dLoan aOne).timeline.get ⟨0, hi⟩).home_value = some v ∧
        dLoan.property_value ≤ v) := by
  have h := claim_C10 dLoan (some aOne) _
    (compare_scenarios_ok_of dLoan aOne (by norm_num [aOne]) (by norm_num [aOne]))
    (by norm_num [dLoan]) (by norm_num [aOne])
  have hlen : (compare_core dLoan aOne).timeline.length = 12 := by
    rw [compare_core_timeline_length]
    decide
  exact ⟨⟨by omega, h.1 0 (by omega)⟩, ⟨by omega, h.2 0 (by omega)⟩⟩

/-- Claim C6 counterexample: with a negative median income (allowed, the core
performs no validation of provider data) and a 100% savings rate, the renter
portfolio of the very first snapshot is negative. -/
theorem claim_C6_counterexample :
    ∃ res, compare_scenarios dNegIncome (some aFullSave) = Except.ok res ∧
      ∃ i, ∃ hi : i < res.timeline.length, ∃ pf,
        (res.timeline.get ⟨i, hi⟩).renter_portfolio = some pf ∧ pf < 0 := by
  have hlen : 0 < (compare_core dNegIncome aFullSave).timeline.length := by
    rw [compare_core_timeline_length]
    decide
  refine ⟨_, compare_scenarios_ok_of dNegIncome aFullSave (by norm_num [aFullSave])
    (by norm_num [aFullSave]), 0, hlen, -1, ?_, by norm_num⟩
  rw [compare_core_timeline_get]
  show some (pfSeq (simParams dNegIncome aFullSave) 1) = some (-1)
  rw [pfSeq_one]
  norm_num [simParams, dNegIncome, aFullSave]

/-- Claim C6, amended: equity is non-negative in every snapshot of every run;
the renter portfolio is non-negative in every snapshot provided the median
income and the savings rate are non-negative (the latter holds for every
validated `ScenarioAssumptions`). -/
theorem claim_C6 (d : LocationFinancialDefaults) (a? : Option ScenarioAssumptions)
    (res : ComparisonResult) (h : compare_scenarios d a? = Except.ok res) :
    (∀ i, ∀ hi : i < res.timeline.length,
      ∃ e, (res.timeline.get ⟨i, hi⟩).equity = some e ∧ 0 ≤ e) ∧
    (0 ≤ d.median_income →
      0 ≤ (a?.getD defaultScenarioAssumptions).savings_rate_of_income →
      ∀ i, ∀ hi : i < res.timeline.length,
        ∃ pf, (res.timeline.get ⟨i, hi⟩).renter_portfolio = some pf ∧ 0 ≤ pf) := by
  rw [compare_scenarios_ok_iff] at h
  obtain ⟨-, hinv, rfl⟩ := h
  constructor
  · intro i hi
    rw [compare_core_timeline_get]
    exact ⟨_, rfl, le_max_right _ 0⟩
  · intro hm hsr i hi
    rw [compare_core_timeline_get]
    refine ⟨_, rfl, pfSeq_nonneg _ ?_ ?_ (i + 1)⟩
    · exact mul_nonneg (div_nonneg hm (by norm_num)) hsr
    · exact (one_add_growth_val_pos _ hinv).le

/-- Witness for the amended C6 at the concrete one-year loan run. -/
theorem claim_C6_witness :
    (∃ hi : 0 < (compare_core dLoan aOne).timeline.length,
      ∃ e, ((compare_core dLoan aOne).timeline.get ⟨0, hi⟩).equity = some e ∧ 0 ≤ e) ∧
    (∃ hi : 0 < (compare_core dLoan aOne).timeline.length,
      ∃ pf, ((compare_core dLoan aOne).timeline.get ⟨0, hi⟩).renter_portfolio =
        some pf ∧ 0 ≤ pf) := by
  have h := claim_C6 dLoan (some aOne) _
    (compare_scenarios_ok_of dLoan aOne (by norm_num [aOne]) (by norm_num [aOne]))
  have hlen : (compare_core dLoan aOne).timeline.length = 12 := by
    rw [compare_core_timeline_length]
    decide
  exact ⟨⟨by omega, h.1 0 (by omega)⟩,
    ⟨by omega, h.2 (by norm_num [dLoan]) (by norm_num [aOne]) 0 (by omega)⟩⟩

/-- Claim C2 counterexample: with a negative loan amount (allowed, the core
performs no validation of provider data) every snapshot's loan balance is the
unchanged negative input, so `loan_balance ≥ 0` fails. -/
theorem claim_C2_counterexample :
    ∃ res, compare_scenarios dNegLoan (some aOne) = Except.ok res ∧
      ∃ i, ∃ hi : i < res.timeline.length, ∃ b,
        (res.timeline.get ⟨i, hi⟩).loan_balance = some b ∧ b < 0 := by
  have hlen : 0 < (compare_core dNegLoan aOne).timeline.length := by
    rw [compare_core_timeline_length]
    decide
  refine ⟨_, compare_scenarios_ok_of dNegLoan aOne (by norm_num [aOne])
    (by norm_num [aOne]), 0, hlen, -1, ?_, by norm_num⟩
  rw [compare_core_timeline_get]
  show some (balSeq (simParams dNegLoan aOne) dNegLoan.loan_amount 1) = some (-1)
  rw [show dNegLoan.loan_amount = (-1 : ℝ) from rfl]
  rw [balSeq_of_nonpos _ _ (by norm_num) 1]

/-- When the break-even register is still unset after `n` months, the renter
portfolio was strictly below owner equity in every month so far. -/
theorem beSeq_none_spec (p : SimParams) (b0 h0 : ℝ) :
    ∀ n, beSeq p b0 h0 n = none →
      ∀ j, 1 ≤ j → j ≤ n → pfSeq p j < eqSeq p b0 h0 j := by
  intro n
  induction n with
  | zero => intro _ j h1 h2; omega
  | succ n ih =>
    intro h j h1 h2
    rw [beSeq] at h
    by_cases hc : beSeq p b0 h0 n = none ∧ pfSeq p (n + 1) ≥ eqSeq p b0 h0 (n + 1)
    · rw [if_pos hc] at h
      exact absurd h (by simp)
    · rw [if_neg hc] at h
      rcases Nat.lt_or_ge j (n + 1) with hj | hj
      · exact ih h j h1 (by omega)
      · have hj' : j = n + 1 := by omega
        subst hj'
        have hnot : ¬ pfSeq p (n + 1) ≥ eqSeq p b0 h0 (n + 1) := fun hge => hc ⟨h, hge⟩
        exact not_le.mp hnot

/-- When the break-even register holds `m` after `n` months, `m` is a month in
range whose portfolio reached equity, and every earlier month fell short. -/
theorem beSeq_some_spec (p : SimParams) (b0 h0 : ℝ) :
    ∀ n m, beSeq p b0 h0 n = some m →
      1 ≤ m ∧ m ≤ n ∧ eqSeq p b0 h0 m ≤ pfSeq p m ∧
        ∀ j, 1 ≤ j → j < m → pfSeq p j < eqSeq p b0 h0 j := by
  intro n
  induction n with
  | zero => intro m h; exact absurd h (by simp [beSeq])
  | succ n ih =>
    intro m h
    rw [beSeq] at h
    by_cases hc : beSeq p b0 h0 n = none ∧ pfSeq p (n + 1) ≥ eqSeq p b0 h0 (n + 1)
    · rw [if_pos hc] at h
      obtain rfl : n + 1 = m := Option.some.inj h
      exact ⟨by omega, le_refl _, hc.2,
        fun j h1 hj => beSeq_none_spec p b0 h0 n hc.1 j h1 (by omega)⟩
    · rw [if_neg hc] at h
      obtain ⟨h1, h2, h3, h4⟩ := ih m h
      exact ⟨h1, by omega, h3, h4⟩

/-- Once set, the break-even register never changes. -/
theorem beSeq_stable (p : SimParams) (b0 h0 : ℝ) (n m : ℕ)
    (h : beSeq p b0 h0 n = some m) : ∀ k, n ≤ k → beSeq p b0 h0 k = some m := by
  intro k
  induction k with
  | zero =>
    intro hk
    obtain rfl := Nat.le_zero.mp hk
    exact h
  | succ k ihk =>
    intro hk
    rcases Nat.lt_or_ge n (k + 1) with hlt | hge
    · have hk' := ihk (by omega)
      rw [beSeq, hk']
      rw [if_neg (by simp)]
    · have : n = k + 1 := by omega
      exact this ▸ h

/-- Claim C1: a set `break_even_month` is the first (1-based) month whose
snapshot has `renter_portfolio ≥ equity`, every earlier snapshot has
`renter_portfolio < equity`, and an unset `break_even_month` means no snapshot
ever satisfies `renter_portfolio ≥ equity`. -/
theorem claim_C1 (d : LocationFinancialDefaults) (a? : Option ScenarioAssumptions)
    (res : ComparisonResult) (h : compare_scenarios d a? = Except.ok res) :
    (∀ m, res.break_even_month = some m →
      ∃ i, ∃ hi : i < res.timeline.length,
        m = i + 1 ∧ (res.timeline.get ⟨i, hi⟩).month = m ∧
        (∃ pf e, (res.timeline.get ⟨i, hi⟩).renter_portfolio = some pf ∧
          (res.timeline.get ⟨i, hi⟩).equity = some e ∧ e ≤ pf) ∧
        ∀ j, ∀ hj : j < i, ∃ pf e,
          (res.timeline.get ⟨j, Nat.lt_trans hj hi⟩).renter_portfolio = some pf ∧
          (res.timeline.get ⟨j, Nat.lt_trans hj hi⟩).equity = some e ∧ pf < e) ∧
    (res.break_even_month = none →
      ∀ i, ∀ hi : i < res.timeline.length, ∃ pf e,
        (res.timeline.get ⟨i, hi⟩).renter_portfolio = some pf ∧
        (res.timeline.get ⟨i, hi⟩).equity = some e ∧ pf < e) := by
  rw [compare_scenarios_ok_iff] at h
  obtain ⟨-, -, rfl⟩ := h
  constructor
  · intro m hm
    rw [compare_core_break_even] at hm
    obtain ⟨h1, h2, h3, h4⟩ := beSeq_some_spec _ _ _ _ m hm
    have hi : m - 1 < (compare_core d (a?.getD defaultScenarioAssumptions)).timeline.length := by
      rw [compare_core_timeline_length]
      omega
    refine ⟨m - 1, hi, by omega, ?_, ?_, ?_⟩
    · rw [compare_core_timeline_get]
      show m - 1 + 1 = m
      omega
    · rw [compare_core_timeline_get]
      refine ⟨_, _, rfl, rfl, ?_⟩
      rw [show m - 1 + 1 = m by omega]
      exact h3
    · intro j hj
      rw [compare_core_timeline_get]
      exact ⟨_, _, rfl, rfl, h4 (j + 1) (by omega) (by omega)⟩
  · intro hm i hi
    rw [compare_core_break_even] at hm
    rw [compare_core_timeline_get]
    rw [compare_core_timeline_length] at hi
    exact ⟨_, _, rfl, rfl, beSeq_none_spec _ _ _ _ hm (i + 1) (by omega) (by omega)⟩

theorem loanRun_payment : (simParams dLoan aOne).mortgage_payment = 1 := by
  show monthly_mortgage_payment dLoan.loan_amount dLoan.interest_rate
    dLoan.loan_term_months = 1
  rw [show dLoan.loan_amount = (12 : ℝ) from rfl,
    show dLoan.interest_rate = (0 : ℝ) from rfl,
    show dLoan.loan_term_months = (12 : ℤ) from rfl]
  norm_num [monthly_mortgage_payment, annual_to_monthly_rate]

theorem loanRun_rate : (simParams dLoan aOne).mortgage_rate_monthly = 0 := by
  show annual_to_monthly_rate dLoan.interest_rate = 0
  rw [show dLoan.interest_rate = (0 : ℝ) from rfl]
  norm_num [annual_to_monthly_rate]

theorem loanRun_bal_one : balSeq (simParams dLoan aOne) dLoan.loan_amount 1 = 11 := by
  show balSeq (simParams dLoan aOne) dLoan.loan_amount (0 + 1) = 11
  rw [balSeq]
  show nextBal (simParams dLoan aOne) 1 dLoan.loan_amount = 11
  unfold nextBal
  rw [show dLoan.loan_amount = (12 : ℝ) from rfl]
  rw [if_pos ⟨by norm_num, by rw [loanRun_payment]; norm_num,
    by show (1 : ℤ) ≤ dLoan.loan_term_months; rw [show dLoan.loan_term_months = (12 : ℤ) from rfl]; norm_num⟩]
  rw [if_pos (by norm_num : (12 : ℝ) > 0)]
  rw [loanRun_payment, loanRun_rate]
  norm_num [max_def, min_def]

theorem loanRun_pf_one : pfSeq (simParams dLoan aOne) 1 = 0 := by
  rw [pfSeq_one]
  show dLoan.median_income / 12 * aOne.savings_rate_of_income = 0
  rw [show dLoan.median_income = (0 : ℝ) from rfl]
  ring

theorem loanRun_eq_one :
    eqSeq (simParams dLoan aOne) dLoan.loan_amount dLoan.property_value 1 = 0 := by
  unfold eqSeq
  rw [loanRun_bal_one]
  rw [show hvSeq (simParams dLoan aOne) dLoan.property_value 1 =
      dLoan.property_value * (1 + (simParams dLoan aOne).appreciation_monthly) from rfl]
  rw [show dLoan.property_value = (0 : ℝ) from rfl]
  norm_num [max_def]

theorem loanRun_break_even :
    (compare_core dLoan aOne).break_even_month = some 1 := by
  rw [compare_core_break_even]
  have h1 : beSeq (simParams dLoan aOne) dLoan.loan_amount dLoan.property_value 1 =
      some 1 := by
    show beSeq (simParams dLoan aOne) dLoan.loan_amount dLoan.property_value (0 + 1) =
      some 1
    rw [beSeq]
    rw [if_pos ⟨rfl, by rw [loanRun_pf_one, loanRun_eq_one]⟩]
  exact beSeq_stable _ _ _ 1 1 h1 _ (by decide)

/-- Witness for C1: in the concrete one-year loan run the break-even month is
month 1, and the claim's characterization holds there. -/
theorem claim_C1_witness :
    ∃ i, ∃ hi : i < (compare_core dLoan aOne).timeline.length,
      1 = i + 1 ∧ ((compare_core dLoan aOne).timeline.get ⟨i, hi⟩).month = 1 ∧
      (∃ pf e, ((compare_core dLoan aOne).timeline.get ⟨i, hi⟩).renter_portfolio =
          some pf ∧
        ((compare_core dLoan aOne).timeline.get ⟨i, hi⟩).equity = some e ∧ e ≤ pf) ∧
      ∀ j, ∀ hj : j < i, ∃ pf e,
        ((compare_core dLoan aOne).timeline.get
          ⟨j, Nat.lt_trans hj hi⟩).renter_portfolio = some pf ∧
        ((compare_core dLoan aOne).timeline.get ⟨j, Nat.lt_trans hj hi⟩).equity =
          some e ∧ pf < e :=
  (claim_C1 dLoan (some aOne) _
    (compare_scenarios_ok_of dLoan aOne (by norm_num [aOne]) (by norm_num [aOne]))).1
    1 loanRun_break_even

/-- If `B` is a balance schedule compatible with the payment and rate
(positive until the term ends, non-negative and decreasing through the term,
losing exactly `payment - interest` each month), then the simulated balance
follows `B` through the term: the `max`/`min` guards of the loop never bind. -/
theorem balSeq_eq_closed_form (p : SimParams) (b0 : ℝ) (B : ℕ → ℝ) (Tn : ℕ)
    (hT : p.loan_term_months = (Tn : ℤ))
    (hB0 : B 0 = b0)
    (hpay : 0 < p.mortgage_payment)
    (hpos : ∀ n, n < Tn → 0 < B n)
    (hnn : ∀ n, n ≤ Tn → 0 ≤ B n)
    (hmono : ∀ n, n < Tn → B (n + 1) ≤ B n)
    (hstep : ∀ n, n < Tn →
      p.mortgage_payment - B n * p.mortgage_rate_monthly = B n - B (n + 1)) :
    ∀ n, n ≤ Tn → balSeq p b0 n = B n := by
  intro n
  induction n with
  | zero => intro _; exact hB0.symm
  | succ n ih =>
    intro hn
    have hn' : n < Tn := by omega
    rw [balSeq, ih (by omega)]
    unfold nextBal
    have hbpos := hpos n hn'
    rw [if_pos ⟨hbpos, hpay, by rw [hT]; exact_mod_cast Nat.succ_le_of_lt hn'⟩]
    rw [if_pos hbpos]
    have hd := hstep n hn'
    rw [show max (p.mortgage_payment - B n * p.mortgage_rate_monthly) 0 =
        B n - B (n + 1) from hd ▸ max_eq_left (by linarith [hmono n hn'])]
    rw [min_eq_left (by linarith [hnn (n + 1) hn])]
    rw [show B n - (B n - B (n + 1)) = B (n + 1) by ring]
    exact max_eq_left (hnn (n + 1) hn)

/-- Straight-line amortization: with a zero monthly rate and the straight-line
payment `b0 / Tn`, the balance after `n ≤ Tn` months is `b0 - n * (b0 / Tn)`. -/
theorem balSeq_zero_rate (p : SimParams) (b0 : ℝ) (Tn : ℕ)
    (hT : p.loan_term_months = (Tn : ℤ)) (hTpos : 0 < Tn) (hb0 : 0 < b0)
    (hrate : p.mortgage_rate_monthly = 0)
    (hpay : p.mortgage_payment = b0 / (Tn : ℝ)) :
    ∀ n, n ≤ Tn → balSeq p b0 n = b0 - n * (b0 / (Tn : ℝ)) := by
  have hTn : (0 : ℝ) < (Tn : ℝ) := by exact_mod_cast hTpos
  have hq : 0 < b0 / (Tn : ℝ) := div_pos hb0 hTn
  have hform : ∀ n : ℕ, b0 - n * (b0 / (Tn : ℝ)) = ((Tn : ℝ) - n) * (b0 / (Tn : ℝ)) := by
    intro n
    field_simp
    ring
  refine balSeq_eq_closed_form p b0 (fun n => b0 - n * (b0 / (Tn : ℝ))) Tn hT
    (by simp) (by rw [hpay]; exact hq) ?_ ?_ ?_ ?_
  · intro n hn
    show 0 < b0 - (n : ℝ) * (b0 / (Tn : ℝ))
    rw [hform n]
    have : (n : ℝ) < (Tn : ℝ) := by exact_mod_cast hn
    exact mul_pos (by linarith) hq
  · intro n hn
    show 0 ≤ b0 - (n : ℝ) * (b0 / (Tn : ℝ))
    rw [hform n]
    have : (n : ℝ) ≤ (Tn : ℝ) := by exact_mod_cast hn
    exact mul_nonneg (by linarith) hq.le
  · intro n _
    have : ((n : ℝ) + 1) * (b0 / (Tn : ℝ)) = n * (b0 / (Tn : ℝ)) + b0 / (Tn : ℝ) := by
      ring
    push_cast
    nlinarith
  · intro n _
    rw [hrate, hpay]
    push_cast
    ring

/-- Standard level-payment amortization: with a positive monthly rate `r` and
payment `b0 * r / (1 - (1 + r) ^ (-Tn))`, the balance after `n ≤ Tn` months is
`b0 * ((1+r)^Tn - (1+r)^n) / ((1+r)^Tn - 1)`. -/
theorem balSeq_pos_rate (p : SimParams) (b0 : ℝ) (Tn : ℕ) (r : ℝ)
    (hT : p.loan_term_months = (Tn : ℤ)) (hTpos : 0 < Tn) (hb0 : 0 < b0)
    (hr : 0 < r)
    (hrate : p.mortgage_rate_monthly = r)
    (hpay : p.mortgage_payment = b0 * r / (1 - (1 + r) ^ (-(Tn : ℤ)))) :
    ∀ n, n ≤ Tn → balSeq p b0 n =
      b0 * ((1 + r) ^ Tn - (1 + r) ^ n) / ((1 + r) ^ Tn - 1) := by
  have hq1 : (1 : ℝ) < 1 + r := by linarith
  have hq0 : (0 : ℝ) < 1 + r := by linarith
  have hX1 : (1 : ℝ) < (1 + r) ^ Tn := one_lt_pow₀ hq1 (by omega)
  have hD : (0 : ℝ) < (1 + r) ^ Tn - 1 := by linarith
  have hDne : (1 + r) ^ Tn - 1 ≠ 0 := ne_of_gt hD
  have hXpos : (0 : ℝ) < (1 + r) ^ Tn := by positivity
  have hpay' : p.mortgage_payment = b0 * r * (1 + r) ^ Tn / ((1 + r) ^ Tn - 1) := by
    rw [hpay, zpow_neg, zpow_natCast]
    rw [show (1 : ℝ) - ((1 + r) ^ Tn)⁻¹ = ((1 + r) ^ Tn - 1) / (1 + r) ^ Tn by
      field_simp]
    rw [div_div_eq_mul_div]
  refine balSeq_eq_closed_form p b0
    (fun n => b0 * ((1 + r) ^ Tn - (1 + r) ^ n) / ((1 + r) ^ Tn - 1)) Tn hT
    ?_ ?_ ?_ ?_ ?_ ?_
  · show b0 * ((1 + r) ^ Tn - (1 + r) ^ 0) / ((1 + r) ^ Tn - 1) = b0
    rw [pow_zero]
    field_simp
  · rw [hpay']
    positivity
  · intro n hn
    have hlt : (1 + r) ^ n < (1 + r) ^ Tn := pow_lt_pow_right₀ hq1 hn
    exact div_pos (mul_pos hb0 (by linarith)) hD
  · intro n hn
    have hle : (1 + r) ^ n ≤ (1 + r) ^ Tn := pow_le_pow_right₀ hq1.le hn
    exact div_nonneg (mul_nonneg hb0.le (by linarith)) hD.le
  · intro n _
    have hstep : (1 + r) ^ n ≤ (1 + r) ^ (n + 1) := pow_le_pow_right₀ hq1.le (by omega)
    exact (div_le_div_iff_of_pos_right hD).mpr (mul_le_mul_of_nonneg_left (by linarith) hb0.le)
  · intro n hn
    rw [hpay', hrate]
    have hne : ((1 + r) ^ Tn - 1) ≠ 0 := hDne
    field_simp
    rw [pow_succ]
    ring

/-- Evaluation of `monthly_mortgage_payment` on the straight-line branch. -/
theorem monthly_mortgage_payment_zero_rate (P irate : ℝ) (T : ℤ)
    (hP : 0 < P) (hT : 0 < T) (hr : irate ≤ 0) :
    monthly_mortgage_payment P irate T = P / (T : ℝ) := by
  unfold monthly_mortgage_payment
  rw [if_neg (by rw [not_or]; exact ⟨not_le.mpr hP, not_le.mpr hT⟩)]
  have h0 : annual_to_monthly_rate irate = 0 := by
    simp [annual_to_monthly_rate, hr]
  simp [h0]

/-- Evaluation of `monthly_mortgage_payment` on the amortization branch. -/
theorem monthly_mortgage_payment_pos_rate (P irate : ℝ) (T : ℤ)
    (hP : 0 < P) (hT : 0 < T) (hr : 0 < irate) :
    monthly_mortgage_payment P irate T =
      P * (irate / 100 / 12) / (1 - (1 + irate / 100 / 12) ^ (-T)) := by
  unfold monthly_mortgage_payment
  rw [if_neg (by rw [not_or]; exact ⟨not_le.mpr hP, not_le.mpr hT⟩)]
  have h0 : annual_to_monthly_rate irate = irate / 100 / 12 := by
    simp [annual_to_monthly_rate, not_le.mpr hr]
  have hne : irate / 100 / 12 ≠ 0 := ne_of_gt (by positivity)
  simp [h0, hne]

/-- For a positive loan with a positive term, the simulated balance is exactly
zero after `loan_term_months` months, whatever the interest rate. -/
theorem balSeq_term_zero (d : LocationFinancialDefaults) (a : ScenarioAssumptions)
    (hP : 0 < d.loan_amount) (hT2 : 0 < d.loan_term_months) :
    balSeq (simParams d a) d.loan_amount d.loan_term_months.toNat = 0 := by
  have hTcast : ((d.loan_term_months.toNat : ℕ) : ℤ) = d.loan_term_months := by omega
  have hTnpos : 0 < d.loan_term_months.toNat := by omega
  have hT : (simParams d a).loan_term_months = (d.loan_term_months.toNat : ℤ) := by
    show d.loan_term_months = _
    omega
  have hTR : ((d.loan_term_months.toNat : ℕ) : ℝ) = ((d.loan_term_months : ℤ) : ℝ) := by
    exact_mod_cast hTcast
  by_cases hr : d.interest_rate ≤ 0
  · have hrate : (simParams d a).mortgage_rate_monthly = 0 := by
      show annual_to_monthly_rate d.interest_rate = 0
      simp [annual_to_monthly_rate, hr]
    have hpayment : (simParams d a).mortgage_payment =
        d.loan_amount / (d.loan_term_months.toNat : ℝ) := by
      show monthly_mortgage_payment d.loan_amount d.interest_rate d.loan_term_months = _
      rw [monthly_mortgage_payment_zero_rate _ _ _ hP hT2 hr, hTR]
    rw [balSeq_zero_rate _ _ _ hT hTnpos hP hrate hpayment _ le_rfl]
    have hTne : ((d.loan_term_months.toNat : ℕ) : ℝ) ≠ 0 :=
      Nat.cast_ne_zero.mpr (by omega)
    field_simp
  · push_neg at hr
    have hrate : (simParams d a).mortgage_rate_monthly = d.interest_rate / 100 / 12 := by
      show annual_to_monthly_rate d.interest_rate = _
      simp [annual_to_monthly_rate, not_le.mpr hr]
    have hrpos : 0 < d.interest_rate / 100 / 12 := by positivity
    have hpayment : (simParams d a).mortgage_payment =
        d.loan_amount * (d.interest_rate / 100 / 12) /
          (1 - (1 + d.interest_rate / 100 / 12) ^ (-(d.loan_term_months.toNat : ℤ))) := by
      show monthly_mortgage_payment d.loan_amount d.interest_rate d.loan_term_months = _
      rw [monthly_mortgage_payment_pos_rate _ _ _ hP hT2 hr, hTcast]
    rw [balSeq_pos_rate _ _ _ _ hT hTnpos hP hrpos hrate hpayment _ le_rfl]
    simp

/-- With a zero interest rate, the simulated balance follows the straight-line
schedule `loan_amount - n * (loan_amount / loan_term_months)` through the term. -/
theorem balSeq_straight_line (d : LocationFinancialDefaults) (a : ScenarioAssumptions)
    (hr0 : d.interest_rate = 0) (hP : 0 < d.loan_amount)
    (hT2 : 0 < d.loan_term_months) :
    ∀ n, n ≤ d.loan_term_months.toNat →
      balSeq (simParams d a) d.loan_amount n =
        d.loan_amount - n * (d.loan_amount / ((d.loan_term_months : ℤ) : ℝ)) := by
  have hTcast : ((d.loan_term_months.toNat : ℕ) : ℤ) = d.loan_term_months := by omega
  have hTnpos : 0 < d.loan_term_months.toNat := by omega
  have hT : (simParams d a).loan_term_months = (d.loan_term_months.toNat : ℤ) := by
    show d.loan_term_months = _
    omega
  have hTR : ((d.loan_term_months.toNat : ℕ) : ℝ) = ((d.loan_term_months : ℤ) : ℝ) := by
    exact_mod_cast hTcast
  have hrate : (simParams d a).mortgage_rate_monthly = 0 := by
    show annual_to_monthly_rate d.interest_rate = 0
    simp [annual_to_monthly_rate, hr0.le]
  have hpayment : (simParams d a).mortgage_payment =
      d.loan_amount / (d.loan_term_months.toNat : ℝ) := by
    show monthly_mortgage_payment d.loan_amount d.interest_rate d.loan_term_months = _
    rw [monthly_mortgage_payment_zero_rate _ _ _ hP hT2 hr0.le, hTR]
  intro n hn
  rw [balSeq_zero_rate _ _ _ hT hTnpos hP hrate hpayment _ hn, hTR]

/-- Claim C2, amended: provided the input loan amount is non-negative, every
snapshot's loan balance is non-negative; and when payments are made
(`loan_amount > 0`, `loan_term_months > 0`, `horizon_years * 12 ≥
loan_term_months`) the loan balance reaches 0 at or before month
`loan_term_months`. -/
theorem claim_C2 (d : LocationFinancialDefaults) (a? : Option ScenarioAssumptions)
    (res : ComparisonResult) (h : compare_scenarios d a? = Except.ok res) :
    (0 ≤ d.loan_amount →
      ∀ i, ∀ hi : i < res.timeline.length,
        ∃ b, (res.timeline.get ⟨i, hi⟩).loan_balance = some b ∧ 0 ≤ b) ∧
    (0 < d.loan_amount → 0 < d.loan_term_months →
      d.loan_term_months ≤ (a?.getD defaultScenarioAssumptions).horizon_years * 12 →
      ∃ i, ∃ hi : i < res.timeline.length,
        ((res.timeline.get ⟨i, hi⟩).month : ℤ) ≤ d.loan_term_months ∧
        (res.timeline.get ⟨i, hi⟩).loan_balance = some 0) := by
  rw [compare_scenarios_ok_iff] at h
  obtain ⟨-, -, rfl⟩ := h
  constructor
  · intro hP i hi
    rw [compare_core_timeline_get]
    exact ⟨_, rfl, balSeq_nonneg _ _ hP (i + 1)⟩
  · intro hP hT2 hhor
    have hlen : d.loan_term_months.toNat - 1 <
        (compare_core d (a?.getD defaultScenarioAssumptions)).timeline.length := by
      rw [compare_core_timeline_length]
      omega
    refine ⟨d.loan_term_months.toNat - 1, hlen, ?_, ?_⟩
    · rw [compare_core_timeline_get]
      show ((d.loan_term_months.toNat - 1 + 1 : ℕ) : ℤ) ≤ d.loan_term_months
      omega
    · rw [compare_core_timeline_get]
      show some (balSeq (simParams d (a?.getD defaultScenarioAssumptions))
        d.loan_amount (d.loan_term_months.toNat - 1 + 1)) = some 0
      rw [show d.loan_term_months.toNat - 1 + 1 = d.loan_term_months.toNat by omega]
      rw [balSeq_term_zero d _ hP hT2]

/-- Witness for the amended C2 at the concrete one-year loan run. -/
theorem claim_C2_witness :
    (∀ i, ∀ hi : i < (compare_core dLoan aOne).timeline.length,
      ∃ b, ((compare_core dLoan aOne).timeline.get ⟨i, hi⟩).loan_balance = some b ∧
        0 ≤ b) ∧
    (∃ i, ∃ hi : i < (compare_core dLoan aOne).timeline.length,
      (((compare_core dLoan aOne).timeline.get ⟨i, hi⟩).month : ℤ) ≤
        dLoan.loan_term_months ∧
      ((compare_core dLoan aOne).timeline.get ⟨i, hi⟩).loan_balance = some 0) := by
  have h := claim_C2 dLoan (some aOne) _
    (compare_scenarios_ok_of dLoan aOne (by norm_num [aOne]) (by norm_num [aOne]))
  exact ⟨h.1 (by norm_num [dLoan]),
    h.2 (by norm_num [dLoan]) (by norm_num [dLoan]) (by norm_num [dLoan, aOne])⟩

/-- Claim C4: with a zero interest rate and payments made, the balance after
month `i + 1` is `loan_amount - (i+1) * (loan_amount / loan_term_months)` (so
the principal paid each month is the constant `loan_amount / loan_term_months`),
consecutive snapshots differ by exactly that constant, and the balance is
exactly 0 at month `loan_term_months`. -/
theorem claim_C4 (d : LocationFinancialDefaults) (a? : Option ScenarioAssumptions)
    (res : ComparisonResult) (h : compare_scenarios d a? = Except.ok res)
    (hr0 : d.interest_rate = 0) (hP : 0 < d.loan_amount)
    (hT2 : 0 < d.loan_term_months)
    (hhor : d.loan_term_months ≤ (a?.getD defaultScenarioAssumptions).horizon_years * 12) :
    (∀ i, ∀ hi : i < res.timeline.length, (i : ℤ) < d.loan_term_months →
      (res.timeline.get ⟨i, hi⟩).loan_balance =
        some (d.loan_amount -
          ((i + 1 : ℕ) : ℝ) * (d.loan_amount / ((d.loan_term_months : ℤ) : ℝ)))) ∧
    (∀ i, ∀ hi : i + 1 < res.timeline.length, ((i + 1 : ℕ) : ℤ) < d.loan_term_months →
      ∃ b b', (res.timeline.get ⟨i, Nat.lt_of_succ_lt hi⟩).loan_balance = some b ∧
        (res.timeline.get ⟨i + 1, hi⟩).loan_balance = some b' ∧
        b - b' = d.loan_amount / ((d.loan_term_months : ℤ) : ℝ)) ∧
    (∃ i, ∃ hi : i < res.timeline.length,
      ((res.timeline.get ⟨i, hi⟩).month : ℤ) = d.loan_term_months ∧
      (res.timeline.get ⟨i, hi⟩).loan_balance = some 0) := by
  rw [compare_scenarios_ok_iff] at h
  obtain ⟨-, -, rfl⟩ := h
  have hline := balSeq_straight_line d (a?.getD defaultScenarioAssumptions) hr0 hP hT2
  refine ⟨?_, ?_, ?_⟩
  · intro i hi hiT
    rw [compare_core_timeline_get]
    show some (balSeq (simParams d (a?.getD defaultScenarioAssumptions))
      d.loan_amount (i + 1)) = _
    rw [hline (i + 1) (by omega)]
  · intro i hi hiT
    rw [compare_core_timeline_get, compare_core_timeline_get]
    refine ⟨_, _, rfl, rfl, ?_⟩
    rw [hline (i + 1) (by omega), hline (i + 1 + 1) (by omega)]
    push_cast
    ring
  · have hlen : d.loan_term_months.toNat - 1 <
        (compare_core d (a?.getD defaultScenarioAssumptions)).timeline.length := by
      rw [compare_core_timeline_length]
      omega
    refine ⟨d.loan_term_months.toNat - 1, hlen, ?_, ?_⟩
    · rw [compare_core_timeline_get]
      show ((d.loan_term_months.toNat - 1 + 1 : ℕ) : ℤ) = d.loan_term_months
      omega
    · rw [compare_core_timeline_get]
      show some (balSeq (simParams d (a?.getD defaultScenarioAssumptions))
        d.loan_amount (d.loan_term_months.toNat - 1 + 1)) = some 0
      rw [show d.loan_term_months.toNat - 1 + 1 = d.loan_term_months.toNat by omega]
      rw [balSeq_term_zero d _ hP hT2]

/-- Witness for C4 at the concrete one-year, zero-rate loan run. -/
theorem claim_C4_witness :
    (∀ i, ∀ hi : i < (compare_core dLoan aOne).timeline.length,
      (i : ℤ) < dLoan.loan_term_months →
      ((compare_core dLoan aOne).timeline.get ⟨i, hi⟩).loan_balance =
        some (dLoan.loan_amount -
          ((i + 1 : ℕ) : ℝ) * (dLoan.loan_amount / ((dLoan.loan_term_months : ℤ) : ℝ)))) ∧
    (∃ i, ∃ hi : i < (compare_core dLoan aOne).timeline.length,
      (((compare_core dLoan aOne).timeline.get ⟨i, hi⟩).month : ℤ) =
        dLoan.loan_term_months ∧
      ((compare_core dLoan aOne).timeline.get ⟨i, hi⟩).loan_balance = some 0) := by
  have h := claim_C4 dLoan (some aOne) _
    (compare_scenarios_ok_of dLoan aOne (by norm_num [aOne]) (by norm_num [aOne]))
    (by norm_num [dLoan]) (by norm_num [dLoan]) (by norm_num [dLoan])
    (by norm_num [dLoan, aOne])
  exact ⟨h.1, h.2.2⟩

/-- Claim C8: `monthly_mortgage_payment(300000, 6.0, 360)` uses the derived
monthly rate 0.005, equals the amortization formula
`300000 * 0.005 / (1 - 1.005 ^ (-360))`, and is within 0.01 of 1798.65. -/
theorem claim_C8 :
    annual_to_monthly_rate 6 = 0.005 ∧
    monthly_mortgage_payment 300000 6 360 =
      300000 * (0.005 : ℝ) / (1 - (1 + 0.005 : ℝ) ^ (-(360 : ℤ))) ∧
    |monthly_mortgage_payment 300000 6 360 - 1798.65| < 1 / 100 := by
  have hrate : annual_to_monthly_rate 6 = 0.005 := by
    norm_num [annual_to_monthly_rate]
  have heq : monthly_mortgage_payment 300000 6 360 =
      300000 * (0.005 : ℝ) / (1 - (1 + 0.005 : ℝ) ^ (-(360 : ℤ))) := by
    rw [monthly_mortgage_payment_pos_rate 300000 6 360 (by norm_num) (by norm_num)
      (by norm_num)]
    norm_num
  refine ⟨hrate, heq, ?_⟩
  have hX2 : (6.0225 : ℝ) < ((201 : ℝ) / 200) ^ (360 : ℕ) := by norm_num
  have hX1 : ((201 : ℝ) / 200) ^ (360 : ℕ) < 6.0226 := by norm_num
  have hXpos : (0 : ℝ) < ((201 : ℝ) / 200) ^ (360 : ℕ) := by positivity
  have h360 : (360 : ℤ) = ((360 : ℕ) : ℤ) := by norm_num
  have hform : monthly_mortgage_payment 300000 6 360 =
      1500 * (((201 : ℝ) / 200) ^ (360 : ℕ)) /
        ((((201 : ℝ) / 200) ^ (360 : ℕ)) - 1) := by
    rw [heq, show ((1 : ℝ) + 0.005) = 201 / 200 by norm_num, h360, zpow_neg,
      zpow_natCast]
    rw [show (1 : ℝ) - (((201 : ℝ) / 200) ^ (360 : ℕ))⁻¹ =
        ((((201 : ℝ) / 200) ^ (360 : ℕ)) - 1) / (((201 : ℝ) / 200) ^ (360 : ℕ)) by
      field_simp]
    rw [div_div_eq_mul_div]
    norm_num
  have hD : (0 : ℝ) < ((201 : ℝ) / 200) ^ (360 : ℕ) - 1 := by linarith
  have hul : 1500 * (((201 : ℝ) / 200) ^ (360 : ℕ)) /
      ((((201 : ℝ) / 200) ^ (360 : ℕ)) - 1) < 1798.66 :=
    (div_lt_iff₀ hD).mpr (by linarith)
  have hll : (1798.64 : ℝ) < 1500 * (((201 : ℝ) / 200) ^ (360 : ℕ)) /
      ((((201 : ℝ) / 200) ^ (360 : ℕ)) - 1) :=
    (lt_div_iff₀ hD).mpr (by linarith)
  rw [hform, abs_sub_lt_iff]
  constructor
  · linarith
  · linarith

end

end RentVsOwn
